/-
  Verification of the menstrual-cycle-tracker event choreography.

  Shallow embedding of the analytics service (prediction_engine.py,
  message_queue.py, models.py), the notification service
  (notification_manager.py, message_queue.py) and the cycle-tracking
  service (routes.py, message_queue.py).

  Dates are modelled as integers (days since an arbitrary epoch), Python
  floats as exact rationals, SQL tables as lists of records, and the
  SQLAlchemy session as an explicit durable-state / session-state pair in
  which only `commit` publishes the session state to the durable state.
  Python `int()` on a non-negative float is truncation, modelled by `pyInt`.
-/
import Mathlib

namespace MCT

/-! ## Data model (models.py of the analytics service) -/

/-- A row of the `cycle_analytics` table. -/
structure CycleAnalytics where
  user_id : Nat
  cycle_id : Nat
  start_date : Int
  end_date : Option Int
  cycle_length : Option Int
  period_length : Option Int
  is_regular : Option Bool
  average_cycle_length : Option ℚ
  cycle_variance : Option ℚ
deriving DecidableEq

/-- A row of the `predictions` table. -/
structure Prediction where
  user_id : Nat
  predicted_start_date : Int
  confidence_score : ℚ
  prediction_method : String
  based_on_cycles : Nat
  is_active : Bool
deriving DecidableEq

/-- The analytics service's database: its two tables. -/
structure AnalyticsDB where
  analytics : List CycleAnalytics
  predictions : List Prediction
deriving DecidableEq

/-- The payload of a cycle event as consumed by the analytics service. -/
structure CycleEvent where
  user_id : Nat
  cycle_id : Nat
  start_date : Int
  end_date : Option Int
deriving DecidableEq

/-! ## Modelling the SQL queries -/

/-- Ordering used by `order_by(CycleAnalytics.start_date.desc())`:
`a` comes before `b` when `b.start_date ≤ a.start_date`. -/
def byRecent (a b : CycleAnalytics) : Prop := b.start_date ≤ a.start_date

instance : DecidableRel byRecent := fun a b =>
  inferInstanceAs (Decidable (b.start_date ≤ a.start_date))

instance : IsTotal CycleAnalytics byRecent := ⟨fun a b => le_total b.start_date a.start_date⟩

instance : IsTrans CycleAnalytics byRecent := ⟨fun _ _ _ h h' => le_trans h' h⟩

/-- Result of `filter_by(user_id=uid)`. -/
def userRows (tbl : List CycleAnalytics) (uid : Nat) : List CycleAnalytics :=
  tbl.filter (fun a => a.user_id == uid)

/-- Result of `filter_by(user_id=uid).filter(cycle_length.isnot(None))`. -/
def lengthRows (tbl : List CycleAnalytics) (uid : Nat) : List CycleAnalytics :=
  tbl.filter (fun a => a.user_id == uid && a.cycle_length.isSome)

/-- Result of the previous query followed by
`order_by(start_date.desc()).limit(limit)`. -/
def recentRows (tbl : List CycleAnalytics) (uid : Nat) (limit : Nat) : List CycleAnalytics :=
  (List.insertionSort byRecent (lengthRows tbl uid)).take limit

/-- The cycle length of a row as a rational (rows fed to it are filtered to
have a defined cycle length). -/
def lenQ (a : CycleAnalytics) : ℚ := ((a.cycle_length.getD 0 : ℤ) : ℚ)

/-! ## Configuration constants (config.py) -/

/-- Config.DEFAULT_CYCLE_LENGTH = 28 in the analytics service config. -/
def Config.DEFAULT_CYCLE_LENGTH : ℚ := 28

/-- Python `int()` applied to a float: truncation toward zero. -/
def pyInt (q : ℚ) : ℤ := if 0 ≤ q then q.floor else -((-q).floor)

/-! ## Statistics engine (prediction_engine.py) -/

/-- PredictionEngine.calculate_average_cycle_length: mean of the cycle
lengths of the most recent (at most 6) rows with a defined cycle length,
or the default 28 when no such row exists. -/
def calculate_average_cycle_length (tbl : List CycleAnalytics) (uid : Nat) : ℚ :=
  let xs := recentRows tbl uid 6
  if xs = [] then Config.DEFAULT_CYCLE_LENGTH
  else (xs.map lenQ).sum / (xs.length : ℚ)

/-- PredictionEngine.calculate_cycle_variance: population variance of the
same window, 0 when fewer than 2 samples exist. -/
def calculate_cycle_variance (tbl : List CycleAnalytics) (uid : Nat) : ℚ :=
  let xs := recentRows tbl uid 6
  if xs.length < 2 then 0
  else
    let mean := (xs.map lenQ).sum / (xs.length : ℚ)
    (xs.map (fun a => (lenQ a - mean) ^ 2)).sum / (xs.length : ℚ)

/-- The most recent analytics row of a user:
`filter_by(user_id).order_by(start_date.desc()).first()`. -/
def latestRow (tbl : List CycleAnalytics) (uid : Nat) : Option CycleAnalytics :=
  (List.insertionSort byRecent (userRows tbl uid)).head?

/-- PredictionEngine.predict_next_period. -/
def predict_next_period (tbl : List CycleAnalytics) (uid : Nat) : Option Prediction :=
  match latestRow tbl uid with
  | none => none
  | some latest =>
    let avg := calculate_average_cycle_length tbl uid
    let v := calculate_cycle_variance tbl uid
    let confidence : ℚ := if v < 2 then 9 / 10 else if v < 5 then 3 / 4 else 3 / 5
    let cycle_count := (userRows tbl uid).length
    some
      { user_id := uid
        predicted_start_date := latest.start_date + pyInt avg
        confidence_score := confidence
        prediction_method := "average_cycle_length"
        based_on_cycles := min cycle_count 6
        is_active := true }

/-! ## Analytics consumer (message_queue.py, MessageConsumer.callback)

The callback is modelled as a list of operations run against an explicit
execution state: a durable database plus a session database.  A `write`
mutates only the session; a `commit` publishes the session to the durable
store.  An exception raised at operation index `k` abandons the session
(the Flask app-context teardown discards uncommitted session state) and
the message is negatively acknowledged without requeue. -/

/-- True when the table already holds a row for this cycle id. -/
def hasCycleRow (tbl : List CycleAnalytics) (cid : Nat) : Bool :=
  tbl.any (fun a => a.cycle_id == cid)

/-- The fresh row built by the callback for a first-seen cycle id. -/
def newAnalyticsRow (e : CycleEvent) : CycleAnalytics :=
  { user_id := e.user_id, cycle_id := e.cycle_id, start_date := e.start_date
    end_date := none, cycle_length := none, period_length := none
    is_regular := none, average_cycle_length := none, cycle_variance := none }

/-- Row predicate for the upsert key. -/
def isCycle (cid : Nat) (a : CycleAnalytics) : Bool := a.cycle_id == cid

/-- Mutate the first row satisfying `p` (`query.first()` followed by ORM
attribute assignment). -/
def updateFirst (p : α → Bool) (f : α → α) : List α → List α
  | [] => []
  | x :: xs => if p x then f x :: xs else x :: updateFirst p f xs

/-- Session write: create the analytics row if absent. -/
def wCreate (e : CycleEvent) (db : AnalyticsDB) : AnalyticsDB :=
  if hasCycleRow db.analytics e.cycle_id then db
  else { db with analytics := newAnalyticsRow e :: db.analytics }

/-- Session write: copy the event's end date and derive the period length. -/
def wEndDate (e : CycleEvent) (db : AnalyticsDB) : AnalyticsDB :=
  match e.end_date with
  | none => db
  | some d =>
    { db with
      analytics := updateFirst (isCycle e.cycle_id)
        (fun a => { a with end_date := some d, period_length := some (d - a.start_date + 1) })
        db.analytics }

/-- Session write: recompute the stored average cycle length. -/
def wAverage (e : CycleEvent) (db : AnalyticsDB) : AnalyticsDB :=
  { db with
    analytics := updateFirst (isCycle e.cycle_id)
      (fun a => { a with average_cycle_length := some (calculate_average_cycle_length db.analytics e.user_id) })
      db.analytics }

/-- Session write: recompute the stored cycle variance. -/
def wVariance (e : CycleEvent) (db : AnalyticsDB) : AnalyticsDB :=
  { db with
    analytics := updateFirst (isCycle e.cycle_id)
      (fun a => { a with cycle_variance := some (calculate_cycle_variance db.analytics e.user_id) })
      db.analytics }

/-- The regularity value assigned by the source line
`analytics.is_regular = analytics.cycle_variance < 5 if analytics.cycle_variance else None`:
Python truthiness maps both None and 0.0 to the else branch. -/
def regularityOf (v : Option ℚ) : Option Bool :=
  match v with
  | none => none
  | some v => if v = 0 then none else some (decide (v < 5))

/-- Session write: derive the regularity flag from the stored variance. -/
def wRegular (e : CycleEvent) (db : AnalyticsDB) : AnalyticsDB :=
  { db with
    analytics := updateFirst (isCycle e.cycle_id)
      (fun a => { a with is_regular := regularityOf a.cycle_variance })
      db.analytics }

/-- The chronologically preceding row of the same user
(`filter(start_date < s).order_by(start_date.desc()).first()`). -/
def prevRow (tbl : List CycleAnalytics) (uid : Nat) (s : Int) : Option CycleAnalytics :=
  (List.insertionSort byRecent
    (tbl.filter (fun a => a.user_id == uid && decide (a.start_date < s)))).head?

/-- Session write: derive the cycle length from the preceding cycle, when
one exists. -/
def wCycleLength (e : CycleEvent) (db : AnalyticsDB) : AnalyticsDB :=
  { db with
    analytics := updateFirst (isCycle e.cycle_id)
      (fun a =>
        match prevRow db.analytics e.user_id a.start_date with
        | none => a
        | some p => { a with cycle_length := some (a.start_date - p.start_date) })
      db.analytics }

/-- Guard of the prediction block: at least two analytics rows for the user
and a prediction was produced. -/
def predictionDue (db : AnalyticsDB) (uid : Nat) : Bool :=
  2 ≤ (userRows db.analytics uid).length && (predict_next_period db.analytics uid).isSome

/-- The bulk update `filter_by(user_id, is_active=True).update(is_active=False)`. -/
def deactivateUser (u : Nat) (ps : List Prediction) : List Prediction :=
  ps.map (fun p => if p.user_id == u && p.is_active then { p with is_active := false } else p)

/-- Session write: deactivate all of the user's active predictions. -/
def wDeactivate (e : CycleEvent) (db : AnalyticsDB) : AnalyticsDB :=
  if predictionDue db e.user_id then
    { db with predictions := deactivateUser e.user_id db.predictions }
  else db

/-- Session write: `db.session.add(prediction)`. -/
def wInsert (e : CycleEvent) (db : AnalyticsDB) : AnalyticsDB :=
  if predictionDue db e.user_id then
    match predict_next_period db.analytics e.user_id with
    | none => db
    | some pr => { db with predictions := pr :: db.predictions }
  else db

/-- A database operation of the handler: a session write or a commit. -/
inductive Op where
  | write (f : AnalyticsDB → AnalyticsDB)
  | commit

/-- Durable plus session state of one handler invocation. -/
structure ExecState where
  durable : AnalyticsDB
  session : AnalyticsDB

/-- Apply one operation. -/
def applyOp (s : ExecState) : Op → ExecState
  | .write f => { s with session := f s.session }
  | .commit => { durable := s.session, session := s.session }

/-- Run a list of operations. -/
def runOps (s : ExecState) (ops : List Op) : ExecState :=
  ops.foldl applyOp s

/-- The callback's database operations in source order: six analytics
session writes, the first commit, the prediction deactivate and insert
writes, the second commit. -/
def callbackOps (e : CycleEvent) : List Op :=
  [.write (wCreate e), .write (wEndDate e), .write (wAverage e), .write (wVariance e),
   .write (wRegular e), .write (wCycleLength e), .commit,
   .write (wDeactivate e), .write (wInsert e), .commit]

/-- Broker acknowledgement outcome of one delivery. -/
inductive Outcome where
  | ack
  | nack (requeue : Bool)
deriving DecidableEq

/-- MessageConsumer.callback of the analytics service.  `fail = none` is a
run without exception; `fail = some k` is a run in which an exception is
raised after the first `k` database operations (the except branch logs and
negatively acknowledges without requeue). -/
def callback (db : AnalyticsDB) (e : CycleEvent) (fail : Option Nat) : AnalyticsDB × Outcome :=
  match fail with
  | none => ((runOps ⟨db, db⟩ (callbackOps e)).durable, .ack)
  | some k => ((runOps ⟨db, db⟩ ((callbackOps e).take k)).durable, .nack false)

/-- The fully applied analytics phase of the callback (the session state at
the first commit). -/
def analyticsPhase (e : CycleEvent) (db : AnalyticsDB) : AnalyticsDB :=
  wCycleLength e (wRegular e (wVariance e (wAverage e (wEndDate e (wCreate e db)))))

/-- The session state at the second commit. -/
def fullPhase (e : CycleEvent) (db : AnalyticsDB) : AnalyticsDB :=
  wInsert e (wDeactivate e (analyticsPhase e db))

/-! ## Notification service (models.py, notification_manager.py, message_queue.py) -/

/-- A row of the `notification_preferences` table (the fields the reminder
logic reads; the column defaults are enabled and 3 days before). -/
structure NotificationPreference where
  user_id : Nat
  period_reminder_enabled : Bool
  reminder_days_before : Int
deriving DecidableEq

/-- A row of the `notifications` table (the fields the claims are about;
the human-readable title and message text are not modelled). -/
structure Notification where
  user_id : Nat
  prediction_id : Nat
  notification_type : String
  scheduled_for : Int
  status : String
deriving DecidableEq

/-- The notification service's database. -/
structure NotifDB where
  prefs : List NotificationPreference
  notifications : List Notification
deriving DecidableEq

/-- A freshly created preference row: all column defaults. -/
def defaultPref (uid : Nat) : NotificationPreference :=
  { user_id := uid, period_reminder_enabled := true, reminder_days_before := 3 }

/-- NotificationManager.create_period_reminder: load or lazily create the
preference row, then either no-op (reminders disabled) or insert a pending
notification scheduled `reminder_days_before` days before the predicted
start date. -/
def create_period_reminder (db : NotifDB) (uid prediction_id : Nat) (predicted_date : Int) :
    NotifDB × Option Notification :=
  let found := db.prefs.find? (fun p => p.user_id == uid)
  let pref := found.getD (defaultPref uid)
  let db1 : NotifDB :=
    match found with
    | some _ => db
    | none => { db with prefs := defaultPref uid :: db.prefs }
  if pref.period_reminder_enabled then
    let n : Notification :=
      { user_id := uid, prediction_id := prediction_id
        notification_type := "period_reminder"
        scheduled_for := predicted_date - pref.reminder_days_before
        status := "pending" }
    ({ db1 with notifications := n :: db1.notifications }, some n)
  else (db1, none)

/-- The payload of a prediction event as consumed by the notification
service. -/
structure PredictionEvent where
  user_id : Nat
  prediction_id : Nat
  predicted_start_date : Int
deriving DecidableEq

/-- MessageConsumer.callback of the notification service: on success the
reminder is created and the message acknowledged; an exception leads to a
negative acknowledgement without requeue. -/
def notification_callback (db : NotifDB) (e : PredictionEvent) (fail : Bool) :
    NotifDB × Outcome :=
  if fail then (db, .nack false)
  else ((create_period_reminder db e.user_id e.prediction_id e.predicted_start_date).1, .ack)

/-! ## Cycle tracking service (routes.py, message_queue.py) -/

/-- A row of the `cycles` table. -/
structure Cycle where
  id : Nat
  user_id : Nat
  start_date : Int
  end_date : Option Int
  period_length : Option Int
deriving DecidableEq

/-- A row of the `symptoms` table (the fields the claims are about). -/
structure Symptom where
  cycle_id : Nat
  user_id : Nat
  date : Int
  symptom_type : String
  value : String
deriving DecidableEq

/-- The cycle tracking service's database. -/
structure CycleDB where
  cycles : List Cycle
  symptoms : List Symptom
deriving DecidableEq

/-- MessagePublisher.publish_cycle_event seen from its caller: the publish
attempt either succeeds or raises. -/
def tryPublish (publishOk : Bool) : Except String Unit :=
  if publishOk then .ok () else .error "publish failed"

/-- The publish attempt as the routes perform it: wrapped in its own
try/except, so a raised publish error is logged and swallowed. -/
def publishContained (publishOk : Bool) : Except String Unit :=
  match tryPublish publishOk with
  | .ok _ => .ok ()
  | .error _ => .ok ()

/-- The request body of POST /cycles. -/
structure CreateCycleReq where
  start_date : Option Int
  end_date : Option Int
deriving DecidableEq

/-- create_cycle: validate, insert, commit, then attempt the publish inside
a nested try/except; only an error escaping that nested handler would reach
the outer handler (rollback of uncommitted state and a 500 response). -/
def create_cycle (db : CycleDB) (uid : Nat) (req : CreateCycleReq) (newId : Nat)
    (publishOk : Bool) : CycleDB × Nat :=
  match req.start_date with
  | none => (db, 400)
  | some s =>
    let cyc : Cycle := { id := newId, user_id := uid, start_date := s
                         end_date := req.end_date, period_length := none }
    let committed : CycleDB := { db with cycles := cyc :: db.cycles }
    match publishContained publishOk with
    | .ok _ => (committed, 201)
    | .error _ => (committed, 500)

/-- The request body of PUT /cycles/id. -/
structure UpdateCycleReq where
  end_date : Option Int
deriving DecidableEq

/-- update_cycle: locate the user's cycle, update the end date and period
length, commit, then attempt the publish inside a nested try/except. -/
def update_cycle (db : CycleDB) (uid cid : Nat) (req : UpdateCycleReq)
    (publishOk : Bool) : CycleDB × Nat :=
  match db.cycles.find? (fun c => c.id == cid && c.user_id == uid) with
  | none => (db, 404)
  | some _ =>
    let upd : Cycle → Cycle := fun c =>
      match req.end_date with
      | none => c
      | some d => { c with end_date := some d, period_length := some (d - c.start_date + 1) }
    let committed : CycleDB :=
      { db with cycles := updateFirst (fun c => c.id == cid && c.user_id == uid) upd db.cycles }
    match publishContained publishOk with
    | .ok _ => (committed, 200)
    | .error _ => (committed, 500)

/-- The request body of POST /symptoms (required fields only). -/
structure CreateSymptomReq where
  cycle_id : Nat
  date : Int
  symptom_type : String
  value : String
deriving DecidableEq

/-- create_symptom: verify the cycle belongs to the user, insert the
symptom, commit, then attempt the publish inside a nested try/except. -/
def create_symptom (db : CycleDB) (uid : Nat) (req : CreateSymptomReq)
    (publishOk : Bool) : CycleDB × Nat :=
  match db.cycles.find? (fun c => c.id == req.cycle_id && c.user_id == uid) with
  | none => (db, 404)
  | some _ =>
    let sym : Symptom := { cycle_id := req.cycle_id, user_id := uid, date := req.date
                           symptom_type := req.symptom_type, value := req.value }
    let committed : CycleDB := { db with symptoms := sym :: db.symptoms }
    match publishContained publishOk with
    | .ok _ => (committed, 201)
    | .error _ => (committed, 500)

/-! ## Broker connection establishment (the _connect methods) -/

/-- How a connect call ends: connected, raised to the caller, or failure
swallowed (logged only). -/
inductive ConnectOutcome where
  | connected
  | raised
  | swallowed
deriving DecidableEq

/-- Observable behaviour of one connect call: its outcome, the number of
connection attempts made, and the sleeps (seconds) performed between
attempts. -/
structure ConnectResult where
  outcome : ConnectOutcome
  attempts : Nat
  sleeps : List Nat
deriving DecidableEq

/-- The retry loop body shared by both consumers and the cycle-tracking
publisher: `for attempt in range(max_retries)` with
`time.sleep(retry_delay)` after every failed non-final attempt and a
re-raise on the final one.  `avail attempt` tells whether the broker is
reachable on that attempt. -/
def connectGo (avail : Nat → Bool) (maxRetries retryDelay : Nat) :
    Nat → Nat → List Nat → ConnectResult
  | 0, attempt, sleeps => ⟨.raised, attempt, sleeps⟩
  | fuel + 1, attempt, sleeps =>
    if avail attempt then ⟨.connected, attempt + 1, sleeps⟩
    else if attempt + 1 < maxRetries then
      connectGo avail maxRetries retryDelay fuel (attempt + 1) (sleeps ++ [retryDelay])
    else ⟨.raised, attempt + 1, sleeps⟩

/-- MessageConsumer._connect (analytics and notification services) and
MessagePublisher._connect (cycle tracking service): max_retries = 5,
retry_delay = 5. -/
def retryConnect (avail : Nat → Bool) : ConnectResult :=
  connectGo avail 5 5 5 0 []

/-- MessagePublisher._connect of the analytics service: a single attempt
inside try/except whose except branch only logs — no retry, no re-raise. -/
def analyticsPublisherConnect (avail : Nat → Bool) : ConnectResult :=
  if avail 0 then ⟨.connected, 1, []⟩ else ⟨.swallowed, 1, []⟩

/-! ## Observation helpers -/

/-- Number of active predictions of a user. -/
def countActive (ps : List Prediction) (u : Nat) : Nat :=
  (ps.filter (fun p => p.user_id == u && p.is_active)).length

/-- Number of analytics rows carrying a given cycle id. -/
def countCycleRows (tbl : List CycleAnalytics) (cid : Nat) : Nat :=
  (tbl.filter (isCycle cid)).length

/-- Relation the callback establishes between the stored variance and the
stored regularity flag of a row. -/
def regOK (a : CycleAnalytics) : Prop :=
  a.is_regular = regularityOf a.cycle_variance

/-! ## Concrete fixtures used by counterexamples and witnesses -/

/-- A first cycle of user 1: no preceding cycle, so no cycle length. -/
def rowA : CycleAnalytics := ⟨1, 1, 0, none, none, none, none, none, none⟩

/-- A second cycle of user 1, 29 days after nothing in particular, with a
stored cycle length of 29. -/
def rowB : CycleAnalytics := ⟨1, 2, 29, none, some 29, none, none, none, none⟩

/-- A third cycle of user 1 with a stored cycle length of 30. -/
def rowC : CycleAnalytics := ⟨1, 3, 59, none, some 30, none, none, none, none⟩

/-- A history whose two defined cycle lengths average to 29.5. -/
def exTbl : List CycleAnalytics := [rowA, rowB, rowC]

/-- A database holding only user 1's first cycle. -/
def exDB : AnalyticsDB := ⟨[rowA], []⟩

/-- A cycle event for user 1's second cycle, starting 30 days after the
first. -/
def exEvent : CycleEvent := ⟨1, 2, 30, none⟩

/-! ## Helper lemmas -/

theorem wCreate_predictions (e : CycleEvent) (db : AnalyticsDB) :
    (wCreate e db).predictions = db.predictions := by
  unfold wCreate; split <;> rfl

theorem wEndDate_predictions (e : CycleEvent) (db : AnalyticsDB) :
    (wEndDate e db).predictions = db.predictions := by
  unfold wEndDate; split <;> rfl

theorem analyticsPhase_predictions (e : CycleEvent) (db : AnalyticsDB) :
    (analyticsPhase e db).predictions = db.predictions := by
  simp [analyticsPhase, wCycleLength, wRegular, wVariance, wAverage,
    wEndDate_predictions, wCreate_predictions]

theorem wDeactivate_analytics (e : CycleEvent) (db : AnalyticsDB) :
    (wDeactivate e db).analytics = db.analytics := by
  unfold wDeactivate; split <;> rfl

theorem wInsert_analytics (e : CycleEvent) (db : AnalyticsDB) :
    (wInsert e db).analytics = db.analytics := by
  unfold wInsert
  split
  · split <;> rfl
  · rfl

theorem fullPhase_analytics (e : CycleEvent) (db : AnalyticsDB) :
    (fullPhase e db).analytics = (analyticsPhase e db).analytics := by
  simp [fullPhase, wInsert_analytics, wDeactivate_analytics]

/-- Durable states reachable by the callback: the untouched database, the
database after the first commit (analytics phase), or the database after
the second commit (prediction phase). -/
theorem callback_durable_cases (db : AnalyticsDB) (e : CycleEvent) (fail : Option Nat) :
    (callback db e fail).1 = db ∨
    (callback db e fail).1 = analyticsPhase e db ∨
    (callback db e fail).1 = fullPhase e db := by
  obtain - | k := fail
  · exact Or.inr (Or.inr rfl)
  · match k with
    | 0 => exact Or.inl rfl
    | 1 => exact Or.inl rfl
    | 2 => exact Or.inl rfl
    | 3 => exact Or.inl rfl
    | 4 => exact Or.inl rfl
    | 5 => exact Or.inl rfl
    | 6 => exact Or.inl rfl
    | 7 => exact Or.inr (Or.inl rfl)
    | 8 => exact Or.inr (Or.inl rfl)
    | 9 => exact Or.inr (Or.inl rfl)
    | n + 10 =>
      right; right
      have ht : (callbackOps e).take (n + 10) = callbackOps e :=
        List.take_of_length_le (by simp [callbackOps])
      simp only [callback, ht]
      rfl

theorem predictionDue_eq_of_analytics (db db' : AnalyticsDB) (u : Nat)
    (h : db.analytics = db'.analytics) : predictionDue db u = predictionDue db' u := by
  unfold predictionDue; rw [h]

theorem predict_user_active (tbl : List CycleAnalytics) (uid : Nat) (pr : Prediction)
    (h : predict_next_period tbl uid = some pr) :
    pr.user_id = uid ∧ pr.is_active = true := by
  unfold predict_next_period at h
  cases hl : latestRow tbl uid with
  | none => rw [hl] at h; cases h
  | some latest =>
    rw [hl] at h
    simp only [Option.some.injEq] at h
    subst h
    exact ⟨rfl, rfl⟩

theorem countActive_cons (p : Prediction) (ps : List Prediction) (u : Nat) :
    countActive (p :: ps) u =
      (if p.user_id == u && p.is_active then 1 else 0) + countActive ps u := by
  simp only [countActive, List.filter_cons]
  split <;> simp [Nat.add_comm]

theorem countActive_deactivateUser_self (u : Nat) (ps : List Prediction) :
    countActive (deactivateUser u ps) u = 0 := by
  induction ps with
  | nil => rfl
  | cons p ps ih =>
    simp only [deactivateUser, List.map_cons] at ih ⊢
    rw [countActive_cons, ih]
    by_cases h : (p.user_id == u && p.is_active) = true
    · simp [h]
    · simp only [Bool.and_eq_true, beq_iff_eq, not_and, Bool.not_eq_true] at h
      by_cases hu : p.user_id = u
      · simp [hu, h hu]
      · simp [hu]

theorem countActive_deactivateUser_ne (u u' : Nat) (ps : List Prediction) (h : u' ≠ u) :
    countActive (deactivateUser u ps) u' = countActive ps u' := by
  induction ps with
  | nil => rfl
  | cons p ps ih =>
    simp only [deactivateUser, List.map_cons] at ih ⊢
    rw [countActive_cons, countActive_cons, ih]
    by_cases hc : (p.user_id == u && p.is_active) = true
    · have hb := hc
      simp only [Bool.and_eq_true, beq_iff_eq] at hb
      obtain ⟨hu, ha⟩ := hb
      have hne : (u == u') = false := by
        simp [beq_eq_false_iff_ne, Ne.symm h]
      simp [hc, hu, ha, hne]
    · simp [hc]

/-! ## Claim theorems -/

/-- Claim C2: for every user, after the analytics consumer finishes
processing a cycle event — with or without an injected exception at any
database operation — at most one active Prediction row exists for that
user, provided that held before.  The deactivation of prior active
predictions and the insert of the new one sit between the same pair of
commits, so every durable state the callback can leave behind satisfies
the invariant. -/
theorem active_prediction_invariant (db : AnalyticsDB) (e : CycleEvent) (fail : Option Nat)
    (h : ∀ u, countActive db.predictions u ≤ 1) (u : Nat) :
    countActive (callback db e fail).1.predictions u ≤ 1 := by
  rcases callback_durable_cases db e fail with hc | hc | hc <;> rw [hc]
  · exact h u
  · rw [analyticsPhase_predictions]; exact h u
  · unfold fullPhase
    by_cases hd : predictionDue (analyticsPhase e db) e.user_id = true
    · have hD : wDeactivate e (analyticsPhase e db) =
          { analyticsPhase e db with
            predictions := deactivateUser e.user_id (analyticsPhase e db).predictions } := by
        simp [wDeactivate, hd]
      have hdD : predictionDue (wDeactivate e (analyticsPhase e db)) e.user_id = true := by
        rw [predictionDue_eq_of_analytics _ (analyticsPhase e db) e.user_id
          (wDeactivate_analytics e (analyticsPhase e db))]
        exact hd
      have hsome : (predict_next_period
          (wDeactivate e (analyticsPhase e db)).analytics e.user_id).isSome = true := by
        have := hdD
        unfold predictionDue at this
        simp only [Bool.and_eq_true] at this
        exact this.2
      obtain ⟨pr, hpr⟩ := Option.isSome_iff_exists.mp hsome
      obtain ⟨hpru, hpra⟩ := predict_user_active _ _ _ hpr
      have hins : wInsert e (wDeactivate e (analyticsPhase e db)) =
          { wDeactivate e (analyticsPhase e db) with
            predictions := pr :: (wDeactivate e (analyticsPhase e db)).predictions } := by
        simp [wInsert, hdD, hpr]
      rw [hins]
      simp only [hD]
      rw [countActive_cons]
      by_cases hu : u = e.user_id
      · subst hu
        rw [countActive_deactivateUser_self]
        simp [hpru, hpra]
      · have hne : (pr.user_id == u) = false := by
          simp [beq_eq_false_iff_ne, hpru, Ne.symm hu]
        rw [countActive_deactivateUser_ne _ _ _ hu]
        simp only [hne, Bool.false_and, if_false]
        rw [analyticsPhase_predictions]
        simpa using h u
    · have hD : wDeactivate e (analyticsPhase e db) = analyticsPhase e db := by
        simp [wDeactivate, hd]
      rw [hD]
      have hdA : predictionDue (analyticsPhase e db) e.user_id = false := by
        simpa using hd
      have hins : wInsert e (analyticsPhase e db) = analyticsPhase e db := by
        simp [wInsert, hdA]
      rw [hins, analyticsPhase_predictions]
      exact h u

/-- Witness for C2: starting from the empty prediction table, processing
the example event leaves at most one active prediction for user 1. -/
theorem active_prediction_invariant_witness :
    countActive (callback exDB exEvent none).1.predictions 1 ≤ 1 :=
  active_prediction_invariant exDB exEvent none (fun _ => Nat.zero_le 1) 1

/-- Claim C3: an exception raised at any point while the analytics consumer
processes a cycle event leaves the durable analytics table either untouched
or exactly at the fully-recomputed post-commit state — never at a partially
updated state — and the message is negatively acknowledged without requeue.
Uncommitted session writes are discarded when the handler unwinds, before
the nack is issued. -/
theorem failed_event_no_half_updated_analytics (db : AnalyticsDB) (e : CycleEvent) (k : Nat) :
    (callback db e (some k)).2 = .nack false ∧
    ((callback db e (some k)).1.analytics = db.analytics ∨
     (callback db e (some k)).1.analytics = (analyticsPhase e db).analytics) := by
  refine ⟨rfl, ?_⟩
  rcases callback_durable_cases db e (some k) with hc | hc | hc <;> rw [hc]
  · exact Or.inl rfl
  · exact Or.inr rfl
  · exact Or.inr (fullPhase_analytics e db)

/-- Claim C4: both consumers acknowledge a delivery exactly when the
handler completes without exception; any exception produces a negative
acknowledgement with requeue = false, so the message is discarded and not
redelivered. -/
theorem consumer_ack_policy (db : AnalyticsDB) (e : CycleEvent)
    (ndb : NotifDB) (pe : PredictionEvent) :
    (callback db e none).2 = .ack ∧
    (∀ k, (callback db e (some k)).2 = .nack false) ∧
    (notification_callback ndb pe false).2 = .ack ∧
    (notification_callback ndb pe true).2 = .nack false :=
  ⟨rfl, fun _ => rfl, rfl, rfl⟩

theorem publishContained_ok (b : Bool) : publishContained b = .ok () := by
  cases b <;> rfl

/-- Claim C5 counterexample: the analytics-service publisher connect makes
exactly one attempt and swallows the failure instead of retrying up to 5
attempts and raising, refuting the claim for this connect operation. -/
theorem analytics_publisher_connect_counterexample :
    analyticsPublisherConnect (fun _ => false) = ⟨.swallowed, 1, []⟩ ∧
    (1 : Nat) ≠ 5 ∧
    (ConnectOutcome.swallowed ≠ ConnectOutcome.raised) := by
  decide

/-- Claim C5 (amended): the consumer connects of the analytics and
notification services and the cycle-tracking publisher connect retry up to
exactly 5 attempts with a fixed 5-second sleep between consecutive failed
attempts and re-raise after exhaustion; the analytics-service publisher
connect, by contrast, is modelled separately (one attempt, failure
swallowed). -/
theorem connect_retry_policy (avail : Nat → Bool) :
    ((∀ i, i < 5 → avail i = false) →
      retryConnect avail = ⟨.raised, 5, [5, 5, 5, 5]⟩) ∧
    (∀ i, i < 5 → avail i = true → (∀ j, j < i → avail j = false) →
      retryConnect avail = ⟨.connected, i + 1, List.replicate i 5⟩) := by
  constructor
  · intro h
    have h0 := h 0 (by omega)
    have h1 := h 1 (by omega)
    have h2 := h 2 (by omega)
    have h3 := h 3 (by omega)
    have h4 := h 4 (by omega)
    simp [retryConnect, connectGo, h0, h1, h2, h3, h4]
  · intro i hi hs hprev
    interval_cases i
    · simp [retryConnect, connectGo, hs]
    · have h0 := hprev 0 (by omega)
      simp [retryConnect, connectGo, h0, hs, List.replicate]
    · have h0 := hprev 0 (by omega)
      have h1 := hprev 1 (by omega)
      simp [retryConnect, connectGo, h0, h1, hs, List.replicate]
    · have h0 := hprev 0 (by omega)
      have h1 := hprev 1 (by omega)
      have h2 := hprev 2 (by omega)
      simp [retryConnect, connectGo, h0, h1, h2, hs, List.replicate]
    · have h0 := hprev 0 (by omega)
      have h1 := hprev 1 (by omega)
      have h2 := hprev 2 (by omega)
      have h3 := hprev 3 (by omega)
      simp [retryConnect, connectGo, h0, h1, h2, h3, hs, List.replicate]

/-- Witness for C5 (amended): with the broker unreachable throughout, the
retrying connect performs 5 attempts, sleeps 5 seconds four times, and
raises. -/
theorem connect_retry_policy_witness :
    retryConnect (fun _ => false) = ⟨.raised, 5, [5, 5, 5, 5]⟩ :=
  (connect_retry_policy (fun _ => false)).1 (fun _ _ => rfl)

/-- Claim C9: for cycle creation, cycle update and symptom logging, the
response and the durable state are independent of whether the cycle-event
publish succeeds, because the publish attempt runs after the commit inside
its own try/except; with a failing publish the creation still returns 201
and the committed row is present. -/
theorem publish_failure_contained (db : CycleDB) (uid : Nat) (req : CreateCycleReq)
    (newId : Nat) (cid : Nat) (ureq : UpdateCycleReq) (sreq : CreateSymptomReq)
    (pub : Bool) :
    create_cycle db uid req newId pub = create_cycle db uid req newId true ∧
    update_cycle db uid cid ureq pub = update_cycle db uid cid ureq true ∧
    create_symptom db uid sreq pub = create_symptom db uid sreq true ∧
    (∀ s, req.start_date = some s →
      (create_cycle db uid req newId false).2 = 201 ∧
      ({ id := newId, user_id := uid, start_date := s, end_date := req.end_date,
         period_length := none } : Cycle) ∈ (create_cycle db uid req newId false).1.cycles) := by
  refine ⟨?_, ?_, ?_, ?_⟩
  · unfold create_cycle
    cases req.start_date <;> simp [publishContained_ok]
  · cases hfind : db.cycles.find? (fun c => c.id == cid && c.user_id == uid) with
    | none => simp [update_cycle, hfind]
    | some c => simp [update_cycle, hfind, publishContained_ok]
  · cases hfind : db.cycles.find? (fun c => c.id == sreq.cycle_id && c.user_id == uid) with
    | none => simp [create_symptom, hfind]
    | some c => simp [create_symptom, hfind, publishContained_ok]
  · intro s hs
    simp [create_cycle, hs, publishContained_ok]

/-- Witness for C9: a concrete creation with a failing publish still
returns 201 and commits the row. -/
theorem publish_failure_contained_witness :
    (create_cycle ⟨[], []⟩ 7 ⟨some 10, none⟩ 1 false).2 = 201 ∧
    ({ id := 1, user_id := 7, start_date := 10, end_date := none,
       period_length := none } : Cycle) ∈ (create_cycle ⟨[], []⟩ 7 ⟨some 10, none⟩ 1 false).1.cycles :=
  (publish_failure_contained ⟨[], []⟩ 7 ⟨some 10, none⟩ 1 0 ⟨none⟩ ⟨0, 0, "", ""⟩ false).2.2.2 10 rfl

theorem find?_updateFirst (p : α → Bool) (f : α → α) (l : List α)
    (hp : ∀ a, p a = true → p (f a) = true) :
    (updateFirst p f l).find? p = (l.find? p).map f := by
  induction l with
  | nil => rfl
  | cons x xs ih =>
    by_cases hx : p x = true
    · rw [show updateFirst p f (x :: xs) = f x :: xs by simp [updateFirst, hx]]
      rw [List.find?_cons_of_pos _ (hp x hx), List.find?_cons_of_pos _ hx]
      rfl
    · rw [show updateFirst p f (x :: xs) = x :: updateFirst p f xs by simp [updateFirst, hx]]
      rw [List.find?_cons_of_neg _ (by simpa using hx), List.find?_cons_of_neg _ (by simpa using hx)]
      exact ih

theorem find?_updateFirst_post (p : α → Bool) (f : α → α) (l : List α) {P : α → Prop}
    (hp : ∀ a, p a = true → p (f a) = true) (hPf : ∀ a, P (f a)) :
    ∀ b, (updateFirst p f l).find? p = some b → P b := by
  intro b hb
  rw [find?_updateFirst p f l hp] at hb
  obtain ⟨c, -, rfl⟩ := Option.map_eq_some'.mp hb
  exact hPf c

theorem find?_updateFirst_pres (p : α → Bool) (f : α → α) (l : List α) {P : α → Prop}
    (hp : ∀ a, p a = true → p (f a) = true) (hPf : ∀ a, P a → P (f a))
    (hl : ∀ b, l.find? p = some b → P b) :
    ∀ b, (updateFirst p f l).find? p = some b → P b := by
  intro b hb
  rw [find?_updateFirst p f l hp] at hb
  obtain ⟨c, hc, rfl⟩ := Option.map_eq_some'.mp hb
  exact hPf c (hl c hc)

theorem regOK_analyticsPhase (e : CycleEvent) (db : AnalyticsDB) :
    ∀ a, (analyticsPhase e db).analytics.find? (isCycle e.cycle_id) = some a → regOK a := by
  have step5 : ∀ b,
      (wRegular e (wVariance e (wAverage e (wEndDate e (wCreate e db))))).analytics.find?
        (isCycle e.cycle_id) = some b → regOK b := by
    apply find?_updateFirst_post
    · intro x hx; exact hx
    · intro x; rfl
  intro a ha
  refine find?_updateFirst_pres _ _ _ ?_ ?_ step5 a ha
  · intro x hx
    dsimp only
    cases hpv : prevRow
        (wRegular e (wVariance e (wAverage e (wEndDate e (wCreate e db))))).analytics
        e.user_id x.start_date <;> simp [hpv] <;> exact hx
  · intro x hx
    dsimp only
    cases hpv : prevRow
        (wRegular e (wVariance e (wAverage e (wEndDate e (wCreate e db))))).analytics
        e.user_id x.start_date <;> simp [hpv] <;> exact hx

/-- Claim C10: in the durable state after the analytics consumer
successfully processes a cycle event, the upserted row has is_regular unset
(None) whenever its recomputed cycle_variance is 0, and a boolean value
equal to variance < 5 whenever the variance is nonzero. -/
theorem zero_variance_regularity (db : AnalyticsDB) (e : CycleEvent) (a : CycleAnalytics)
    (ha : (callback db e none).1.analytics.find? (isCycle e.cycle_id) = some a) :
    (a.cycle_variance = some 0 → a.is_regular = none) ∧
    (∀ v, a.cycle_variance = some v → v ≠ 0 → a.is_regular = some (decide (v < 5))) := by
  have hfull : (callback db e none).1 = fullPhase e db := rfl
  rw [hfull, fullPhase_analytics] at ha
  have hreg := regOK_analyticsPhase e db a ha
  unfold regOK at hreg
  constructor
  · intro h0
    rw [h0] at hreg
    simpa [regularityOf] using hreg
  · intro v hv hne
    rw [hv] at hreg
    rw [hreg]
    simp [regularityOf, hne]

/-- Witness for C10: processing the example event computes variance 0 for
the upserted row (a single cycle-length sample) and leaves is_regular
unset. -/
theorem zero_variance_regularity_witness :
    (⟨1, 2, 30, none, some 30, none, none, some 28, some 0⟩ : CycleAnalytics).is_regular = none :=
  (zero_variance_regularity exDB exEvent
      ⟨1, 2, 30, none, some 30, none, none, some 28, some 0⟩
      (by with_unfolding_all decide)).1 (by with_unfolding_all decide)

theorem countCycleRows_cons (x : CycleAnalytics) (l : List CycleAnalytics) (c : Nat) :
    countCycleRows (x :: l) c = (if isCycle c x then 1 else 0) + countCycleRows l c := by
  simp only [countCycleRows, List.filter_cons]
  split <;> simp [Nat.add_comm]

theorem countCycleRows_updateFirst (p : CycleAnalytics → Bool) (f : CycleAnalytics → CycleAnalytics)
    (l : List CycleAnalytics) (c : Nat) (hf : ∀ a, (f a).cycle_id = a.cycle_id) :
    countCycleRows (updateFirst p f l) c = countCycleRows l c := by
  induction l with
  | nil => rfl
  | cons x xs ih =>
    by_cases hx : p x = true
    · rw [show updateFirst p f (x :: xs) = f x :: xs by simp [updateFirst, hx]]
      rw [countCycleRows_cons, countCycleRows_cons]
      have : isCycle c (f x) = isCycle c x := by simp [isCycle, hf]
      rw [this]
    · rw [show updateFirst p f (x :: xs) = x :: updateFirst p f xs by simp [updateFirst, hx]]
      rw [countCycleRows_cons, countCycleRows_cons, ih]

theorem countCycleRows_wEndDate (e : CycleEvent) (db : AnalyticsDB) (c : Nat) :
    countCycleRows (wEndDate e db).analytics c = countCycleRows db.analytics c := by
  unfold wEndDate
  cases e.end_date with
  | none => rfl
  | some d => exact countCycleRows_updateFirst _ _ _ _ (fun a => rfl)

theorem countCycleRows_wAverage (e : CycleEvent) (db : AnalyticsDB) (c : Nat) :
    countCycleRows (wAverage e db).analytics c = countCycleRows db.analytics c :=
  countCycleRows_updateFirst _ _ _ _ (fun _ => rfl)

theorem countCycleRows_wVariance (e : CycleEvent) (db : AnalyticsDB) (c : Nat) :
    countCycleRows (wVariance e db).analytics c = countCycleRows db.analytics c :=
  countCycleRows_updateFirst _ _ _ _ (fun _ => rfl)

theorem countCycleRows_wRegular (e : CycleEvent) (db : AnalyticsDB) (c : Nat) :
    countCycleRows (wRegular e db).analytics c = countCycleRows db.analytics c :=
  countCycleRows_updateFirst _ _ _ _ (fun _ => rfl)

theorem countCycleRows_wCycleLength (e : CycleEvent) (db : AnalyticsDB) (c : Nat) :
    countCycleRows (wCycleLength e db).analytics c = countCycleRows db.analytics c :=
  countCycleRows_updateFirst _ _ _ _ (fun a => by
    cases hpv : prevRow db.analytics e.user_id a.start_date <;> simp [hpv])

theorem countCycleRows_analyticsPhase (e : CycleEvent) (db : AnalyticsDB) (c : Nat) :
    countCycleRows (analyticsPhase e db).analytics c =
      countCycleRows (wCreate e db).analytics c := by
  unfold analyticsPhase
  rw [countCycleRows_wCycleLength, countCycleRows_wRegular, countCycleRows_wVariance,
    countCycleRows_wAverage, countCycleRows_wEndDate]

theorem countCycleRows_wCreate (e : CycleEvent) (db : AnalyticsDB) (c : Nat) :
    countCycleRows (wCreate e db).analytics c = countCycleRows db.analytics c ∨
    (c = e.cycle_id ∧ countCycleRows db.analytics c = 0 ∧
     countCycleRows (wCreate e db).analytics c = 1) := by
  unfold wCreate
  by_cases h : hasCycleRow db.analytics e.cycle_id = true
  · simp [h]
  · rw [if_neg h]
    by_cases hc : c = e.cycle_id
    · have hz : countCycleRows db.analytics c = 0 := by
        unfold hasCycleRow at h
        have hall := List.any_eq_false.mp (Bool.eq_false_iff.mpr h)
        simp only [countCycleRows, List.length_eq_zero, List.filter_eq_nil_iff]
        intro a hamem
        have hna := hall a hamem
        simpa [isCycle, hc] using hna
      refine Or.inr ⟨hc, hz, ?_⟩
      rw [countCycleRows_cons, hz]
      simp [isCycle, newAnalyticsRow, hc]
    · left
      rw [countCycleRows_cons]
      have : isCycle c (newAnalyticsRow e) = false := by
        simp [isCycle, newAnalyticsRow, beq_eq_false_iff_ne]
        exact fun hcontra => hc hcontra.symm
      simp [this]

/-- Claim C6 counterexample: replaying the example cycle event leaves the
row keyed by cycle id 2 with a different stored state than after the first
processing — the first run stores average 28 (the default: at recomputation
time no row yet carries a cycle length), the replay stores average 30 (the
cycle length written by the first run is now visible). -/
theorem replay_not_idempotent_counterexample :
    ((callback exDB exEvent none).1.analytics.find? (isCycle 2)).map
        (fun a => a.average_cycle_length) = some (some 28) ∧
    ((callback (callback exDB exEvent none).1 exEvent none).1.analytics.find? (isCycle 2)).map
        (fun a => a.average_cycle_length) = some (some 30) ∧
    (some (28 : ℚ) : Option ℚ) ≠ some 30 := by
  with_unfolding_all decide

/-- Claim C6 (amended): processing a cycle event never creates a second
CycleAnalytics row for an already-present cycle id and leaves every cycle
id's row count unchanged, except that the event's own cycle id goes from
zero rows to exactly one; replaying an event therefore updates the single
existing row in place, but the resulting row state can differ from the
first processing because the recomputed statistics now see the cycle
length stored by the first run. -/
theorem cycle_event_upsert_unique (db : AnalyticsDB) (e : CycleEvent) (fail : Option Nat)
    (c : Nat) :
    countCycleRows (callback db e fail).1.analytics c = countCycleRows db.analytics c ∨
    (c = e.cycle_id ∧ countCycleRows db.analytics c = 0 ∧
     countCycleRows (callback db e fail).1.analytics c = 1) := by
  rcases callback_durable_cases db e fail with hc | hc | hc <;> rw [hc]
  · exact Or.inl rfl
  · rw [countCycleRows_analyticsPhase]
    exact countCycleRows_wCreate e db c
  · rw [fullPhase_analytics, countCycleRows_analyticsPhase]
    exact countCycleRows_wCreate e db c

/-- Claim C7: on a prediction event the user's preference row is loaded, or
lazily created with the column defaults (reminders enabled, 3 days
before); with reminders enabled a pending Notification scheduled
reminder_days_before days before the predicted start date is inserted,
and with reminders disabled no Notification row is created. -/
theorem create_period_reminder_spec (db : NotifDB) (uid pid : Nat) (d : Int) :
    (defaultPref uid).period_reminder_enabled = true ∧
    (defaultPref uid).reminder_days_before = 3 ∧
    (db.prefs.find? (fun p => p.user_id == uid) = none →
      (create_period_reminder db uid pid d).1.prefs = defaultPref uid :: db.prefs) ∧
    (∀ pref, (db.prefs.find? (fun p => p.user_id == uid)).getD (defaultPref uid) = pref →
      (pref.period_reminder_enabled = true →
        (create_period_reminder db uid pid d).1.notifications =
          { user_id := uid, prediction_id := pid, notification_type := "period_reminder",
            scheduled_for := d - pref.reminder_days_before, status := "pending" } ::
            db.notifications) ∧
      (pref.period_reminder_enabled = false →
        (create_period_reminder db uid pid d).1.notifications = db.notifications ∧
        (create_period_reminder db uid pid d).2 = none)) := by
  refine ⟨rfl, rfl, ?_, ?_⟩
  · intro h
    simp only [create_period_reminder, h]
    split <;> rfl
  · intro pref hpref
    cases hf : db.prefs.find? (fun p => p.user_id == uid) with
    | none =>
      have hd : pref = defaultPref uid := by rw [← hpref, hf]; rfl
      subst hd
      constructor
      · intro hen
        simp [create_period_reminder, hf, hen]
      · intro hdis
        rw [show (defaultPref uid).period_reminder_enabled = true from rfl] at hdis
        cases hdis
    | some q =>
      have hd : pref = q := by rw [← hpref, hf]; rfl
      subst hd
      constructor
      · intro hen
        simp [create_period_reminder, hf, hen]
      · intro hdis
        simp [create_period_reminder, hf, hdis]

/-- Witness for C7: a prediction event for a user with no preference row
creates a pending reminder scheduled 3 days before the predicted date. -/
theorem create_period_reminder_spec_witness :
    (create_period_reminder ⟨[], []⟩ 4 9 100).1.notifications =
      [{ user_id := 4, prediction_id := 9, notification_type := "period_reminder",
         scheduled_for := 100 - 3, status := "pending" }] :=
  ((create_period_reminder_spec ⟨[], []⟩ 4 9 100).2.2.2 (defaultPref 4) rfl).1 rfl

/-- Claim C8: calculate_average_cycle_length averages the cycle lengths of
the most recent at most 6 rows with a defined cycle length — the selected
window has size min 6 (available), draws only from the length-bearing rows,
and every selected row is at least as recent as every unselected one — and
returns the default constant 28 when no such row exists. -/
theorem calculate_average_cycle_length_spec (tbl : List CycleAnalytics) (uid : Nat) :
    (recentRows tbl uid 6).length = min 6 (lengthRows tbl uid).length ∧
    (∀ a, a ∈ recentRows tbl uid 6 → a ∈ lengthRows tbl uid) ∧
    (∀ a, a ∈ recentRows tbl uid 6 → ∀ b, b ∈ lengthRows tbl uid →
      b ∉ recentRows tbl uid 6 → b.start_date ≤ a.start_date) ∧
    (lengthRows tbl uid = [] → calculate_average_cycle_length tbl uid = 28) ∧
    (recentRows tbl uid 6 ≠ [] →
      calculate_average_cycle_length tbl uid =
        ((recentRows tbl uid 6).map lenQ).sum / ((recentRows tbl uid 6).length : ℚ)) := by
  refine ⟨?_, ?_, ?_, ?_, ?_⟩
  · simp only [recentRows, List.length_take,
      (List.perm_insertionSort byRecent (lengthRows tbl uid)).length_eq]
  · intro a ha
    simp only [recentRows] at ha
    exact (List.perm_insertionSort byRecent (lengthRows tbl uid)).mem_iff.mp
      (List.mem_of_mem_take ha)
  · intro a ha b hb hnb
    simp only [recentRows] at ha hnb
    have hbS : b ∈ List.insertionSort byRecent (lengthRows tbl uid) :=
      (List.perm_insertionSort byRecent (lengthRows tbl uid)).mem_iff.mpr hb
    have hsplit : b ∈ (List.insertionSort byRecent (lengthRows tbl uid)).take 6 ++
        (List.insertionSort byRecent (lengthRows tbl uid)).drop 6 := by
      rw [List.take_append_drop]
      exact hbS
    have hbd : b ∈ (List.insertionSort byRecent (lengthRows tbl uid)).drop 6 := by
      rcases List.mem_append.mp hsplit with h | h
      · exact absurd h hnb
      · exact h
    have hsorted : List.Sorted byRecent
        ((List.insertionSort byRecent (lengthRows tbl uid)).take 6 ++
         (List.insertionSort byRecent (lengthRows tbl uid)).drop 6) := by
      rw [List.take_append_drop]
      exact List.sorted_insertionSort byRecent (lengthRows tbl uid)
    exact (List.pairwise_append.mp hsorted).2.2 a ha b hbd
  · intro h
    simp [calculate_average_cycle_length, recentRows, h, List.insertionSort,
      Config.DEFAULT_CYCLE_LENGTH]
  · intro h
    simp only [calculate_average_cycle_length, if_neg h]

/-- Witness for C8: on the example history the function returns the mean of
the selected window (evaluating to 59/2 over the two length-bearing
rows). -/
theorem calculate_average_cycle_length_spec_witness :
    calculate_average_cycle_length exTbl 1 =
      ((recentRows exTbl 1 6).map lenQ).sum / ((recentRows exTbl 1 6).length : ℚ) :=
  (calculate_average_cycle_length_spec exTbl 1).2.2.2.2 (by with_unfolding_all decide)

/-- Claim C1 counterexample: on a history whose cycle lengths average 29.5,
the code adds int(29.5) = 29 days to the most recent start date 59 and
predicts day 88, while the claimed round(29.5) = 30 would give day 89. -/
theorem predict_round_counterexample :
    calculate_average_cycle_length exTbl 1 = 59 / 2 ∧
    (predict_next_period exTbl 1).map (fun p => p.predicted_start_date) = some 88 ∧
    (latestRow exTbl 1).map (fun a => a.start_date) = some 59 ∧
    (59 : ℤ) + round ((59 : ℚ) / 2) = 89 ∧
    ((88 : ℤ) ≠ 89) := by
  with_unfolding_all decide

/-- Claim C1 (amended): with at least one CycleAnalytics row,
predict_next_period predicts the most recent start date plus the average
cycle length truncated toward zero (Python int(), not round); with no rows
it returns none. -/
theorem predict_next_period_spec (tbl : List CycleAnalytics) (uid : Nat) :
    (userRows tbl uid = [] → predict_next_period tbl uid = none) ∧
    (userRows tbl uid ≠ [] → (predict_next_period tbl uid).isSome = true) ∧
    (∀ pr, predict_next_period tbl uid = some pr →
      ∃ latest, latest ∈ userRows tbl uid ∧
        (∀ b, b ∈ userRows tbl uid → b.start_date ≤ latest.start_date) ∧
        pr.predicted_start_date =
          latest.start_date + pyInt (calculate_average_cycle_length tbl uid)) := by
  refine ⟨?_, ?_, ?_⟩
  · intro h
    simp [predict_next_period, latestRow, h, List.insertionSort]
  · intro h
    unfold predict_next_period
    cases hl : latestRow tbl uid with
    | none =>
      exfalso
      apply h
      unfold latestRow at hl
      have hnil : List.insertionSort byRecent (userRows tbl uid) = [] :=
        List.head?_eq_none_iff.mp hl
      have := (List.perm_insertionSort byRecent (userRows tbl uid)).length_eq
      rw [hnil] at this
      exact List.length_eq_zero.mp this.symm
    | some latest => rfl
  · intro pr hpr
    unfold predict_next_period at hpr
    cases hl : latestRow tbl uid with
    | none => rw [hl] at hpr; cases hpr
    | some latest =>
      rw [hl] at hpr
      simp only [Option.some.injEq] at hpr
      subst hpr
      refine ⟨latest, ?_, ?_, rfl⟩
      · unfold latestRow at hl
        cases hS : List.insertionSort byRecent (userRows tbl uid) with
        | nil => rw [hS] at hl; cases hl
        | cons x t =>
          rw [hS] at hl
          simp only [List.head?_cons, Option.some.injEq] at hl
          subst hl
          exact (List.perm_insertionSort byRecent (userRows tbl uid)).mem_iff.mp
            (by rw [hS]; exact List.mem_cons_self _ _)
      · intro b hb
        unfold latestRow at hl
        have hbS : b ∈ List.insertionSort byRecent (userRows tbl uid) :=
          (List.perm_insertionSort byRecent (userRows tbl uid)).mem_iff.mpr hb
        have hsorted := List.sorted_insertionSort byRecent (userRows tbl uid)
        cases hS : List.insertionSort byRecent (userRows tbl uid) with
        | nil => rw [hS] at hbS; cases hbS
        | cons x t =>
          rw [hS] at hl hbS hsorted
          simp only [List.head?_cons, Option.some.injEq] at hl
          subst hl
          rcases List.mem_cons.mp hbS with hbx | hbt
          · exact le_of_eq (by rw [hbx])
          · exact List.rel_of_sorted_cons hsorted b hbt

/-- Witness for C1 (amended): on the example history the prediction is the
latest start date plus the truncated average. -/
theorem predict_next_period_spec_witness :
    ∃ latest, latest ∈ userRows exTbl 1 ∧
      (∀ b, b ∈ userRows exTbl 1 → b.start_date ≤ latest.start_date) ∧
      (88 : ℤ) = latest.start_date + pyInt (calculate_average_cycle_length exTbl 1) :=
  (predict_next_period_spec exTbl 1).2.2
    ⟨1, 88, 9 / 10, "average_cycle_length", 3, true⟩ (by with_unfolding_all decide)

end MCT
